import Mathlib

/-!
Shallow embedding of the fetchyourkeys JavaScript SDK
(repository Thomah6/fetchyourkeys_JSsdk).

Two source variants are modelled side by side, because the repository ships
both and they disagree on several points:

* `src/lib/index.js`   — the "auto validation" build: `FetchYourKeys` stores a
  typed `initializationError`, `get` returns a structured Result envelope,
  `safeGet` wraps it.  Embedded below with the `Lib` prefix.
* `src/src/index.ts`   — the "offline support" build: `FetchYourKeys.get`
  returns `Key | null`, reloads the whole cache on a miss while online, and
  `initializeWithOfflineSupport` only logs the empty-cache network error.
  Embedded below with the `Ts` prefix.

Modelling conventions:

* `scryptSync` (Node's crypto KDF) is an external collaborator; every
  definition takes it as an explicit parameter `scrypt : String → String →
  String`.  Determinism of the derivation is function application; nothing
  else about it is assumed.
* JavaScript `Map` objects are modelled by insertion-ordered association
  lists (`JsMap`): `set` updates in place or appends, `get` finds the first
  (only) binding, `delete` removes it.
* AES-256-GCM encryption of the disk envelope is modelled symbolically: a
  well-formed ciphertext remembers the derived key it was encrypted under
  (`DiskFile.enc`), and decryption succeeds exactly when the reader derives
  the same key; a truncated/blank/corrupt file fails decryption, which the
  loader catches and turns into an empty cache, exactly as the source does.
  The memory backend encrypts each entry with the instance's own fixed key
  and the ciphertext never leaves the instance, so that layer is modelled as
  the identity on the enveloped payload `{value, apiKey: masked}` (the
  timestamp field is never read back and is dropped).
* A JSON record's possibly-absent properties (`label` on records arriving
  from the network, `meta` stripped by sanitization) are `Option` fields;
  `none` is an absent property.
-/

/-- Association-list model of a JavaScript `Map` (insertion ordered). -/
abbrev JsMap (κ α : Type) := List (κ × α)

/-- `Map.prototype.get`. -/
def jsGet [BEq κ] (m : JsMap κ α) (q : κ) : Option α :=
  match m with
  | [] => none
  | (k, v) :: rest => if k == q then some v else jsGet rest q

/-- `Map.prototype.set`: update in place keeps the entry's position, a new
key is appended at the end. -/
def jsSet [BEq κ] (m : JsMap κ α) (k : κ) (v : α) : JsMap κ α :=
  match m with
  | [] => [(k, v)]
  | (k', v') :: rest => if k' == k then (k, v) :: rest else (k', v') :: jsSet rest k v

/-- `Map.prototype.has`. -/
def jsHas [BEq κ] (m : JsMap κ α) (k : κ) : Bool :=
  (jsGet m k).isSome

/-- `Map.prototype.delete` (maps never hold a key twice). -/
def jsDelete [BEq κ] (m : JsMap κ α) (k : κ) : JsMap κ α :=
  match m with
  | [] => []
  | (k', v) :: rest => if k' == k then rest else (k', v) :: jsDelete rest k

/-- `Array.from(map.keys())`. -/
def jsKeys (m : JsMap κ α) : List κ :=
  m.map (·.1)

/-- `map.size`. -/
def jsSize (m : JsMap κ α) : Nat :=
  m.length

/-- The `Key` record served by the remote endpoint (interface `Key`,
src/src/index.ts lines 9-18).  `meta` is an `Option` because sanitization
removes the property; a record fetched from the API carries `some` map. -/
structure Key where
  id : String
  label : String
  service : String
  value : String
  meta : Option (List (String × String))
  is_active : Bool
  created_at : String
  updated_at : String
deriving DecidableEq, Inhabited

/-- `sanitizeKey` (src/src/index.ts lines 988-991, src/lib/index.js lines
743-746): `const { meta, ...sanitized } = key; return sanitized`. -/
def sanitizeKey (key : Key) : Key :=
  { key with meta := none }

/-- `maskApiKey` (identical in every class of both variants). -/
def maskApiKey (apiKey : String) : String :=
  if apiKey.length ≤ 8 then "***"
  else apiKey.take 4 ++ "***" ++ apiKey.drop (apiKey.length - 4)

/-- Decrypted on-disk cache envelope (`cacheData` built in
`SecureDiskCache.saveToDisk`, src/src/index.ts lines 274-281; the
`timestamp`, `version` and `cacheId` fields are never read back and are
dropped). -/
structure Envelope where
  signature : String
  apiKeyMasked : String
  data : JsMap String Key
deriving DecidableEq

/-- Contents of the cache file.  `enc k env` is a well-formed ciphertext
produced under derived key `k`; `blank` is the empty string written by
`clear()`; `corrupt` is anything that fails `decrypt` (bad format, bad auth
tag, bad JSON). -/
inductive DiskFile
  | absent
  | blank
  | enc (encKey : String) (env : Envelope)
  | corrupt
deriving DecidableEq

/-- GCM decryption with this instance's key: succeeds exactly on a
well-formed ciphertext produced under the same derived key. -/
def tryDecrypt (myKey : String) : DiskFile → Option Envelope
  | .enc k env => if k == myKey then some env else none
  | _ => none

/-- `SecureDiskCache` (src/src/index.ts lines 132-355): in-memory `Map`
plus the persisted file; the credential-derived material is stored at
construction time. -/
structure SecureDiskCache where
  apiKey : String
  encryptionKey : String
  cacheSignature : String
  cacheId : String
  cache : JsMap String Key
  file : DiskFile
deriving DecidableEq

/-- `SecureDiskCache.clear` (lines 326-336): empty the map and truncate the
backing file (only if it exists; write errors are caught and ignored). -/
def SecureDiskCache.clear (c : SecureDiskCache) : SecureDiskCache :=
  { c with cache := [],
           file := match c.file with | .absent => .absent | _ => .blank }

/-- `SecureDiskCache.saveToDisk` (lines 272-291): re-encrypt the whole map
with the envelope fields and overwrite the file. -/
def SecureDiskCache.saveToDisk (c : SecureDiskCache) : SecureDiskCache :=
  { c with file := (DiskFile.enc c.encryptionKey ⟨c.cacheSignature, maskApiKey c.apiKey, c.cache⟩) }

/-- `SecureDiskCache.set` (lines 293-301): upsert then write through. -/
def SecureDiskCache.set (c : SecureDiskCache) (key : String) (value : Key) : SecureDiskCache :=
  SecureDiskCache.saveToDisk { c with cache := jsSet c.cache key value }

/-- `SecureDiskCache.get` (lines 303-305). -/
def SecureDiskCache.get (c : SecureDiskCache) (key : String) : Option Key :=
  jsGet c.cache key

/-- `SecureDiskCache.has` (lines 307-309). -/
def SecureDiskCache.has (c : SecureDiskCache) (key : String) : Bool :=
  jsHas c.cache key

/-- `SecureDiskCache.delete` (lines 311-320): remove, re-save on success. -/
def SecureDiskCache.delete (c : SecureDiskCache) (key : String) : Bool × SecureDiskCache :=
  if jsHas c.cache key then
    (true, SecureDiskCache.saveToDisk { c with cache := jsDelete c.cache key })
  else (false, c)

/-- `SecureDiskCache.keys` (lines 322-324). -/
def SecureDiskCache.keys (c : SecureDiskCache) : List String :=
  jsKeys c.cache

/-- `SecureDiskCache.size` (lines 338-340). -/
def SecureDiskCache.size (c : SecureDiskCache) : Nat :=
  jsSize c.cache

/-- `SecureDiskCache.getCacheId` (lines 342-344). -/
def SecureDiskCache.getCacheId (c : SecureDiskCache) : String :=
  c.cacheId

/-- `SecureDiskCache.isValidForApiKey` (src/src/index.ts lines 346-354,
src/lib/index.js lines 311-319): recompute the expected signature from the
credential and compare with the one stored at construction time. -/
def SecureDiskCache.isValidForApiKey (scrypt : String → String → String)
    (c : SecureDiskCache) (apiKey : String) : Bool :=
  c.cacheSignature == scrypt apiKey "disk-cache-signature-v2"

/-- `new SecureDiskCache(apiKey)` over a given file (constructor lines
141-154 followed by `loadFromDisk`, lines 241-270): derive the key
material, then load the file; a decryption failure or a signature /
masked-key mismatch discards the file contents and starts empty. -/
def mkSecureDiskCache (scrypt : String → String → String)
    (apiKey : String) (file : DiskFile) : SecureDiskCache :=
  let base : SecureDiskCache :=
    { apiKey := apiKey
      encryptionKey := scrypt apiKey "fetchyourkeys-disk-cache-v2"
      cacheSignature := scrypt apiKey "disk-cache-signature-v2"
      cacheId := scrypt apiKey "cache-id-salt-v2"
      cache := []
      file := file }
  match file with
  | .absent => base
  | f =>
    match tryDecrypt base.encryptionKey f with
    | none => base.clear
    | some env =>
      if env.signature == base.cacheSignature
          && env.apiKeyMasked == maskApiKey apiKey then
        { base with cache := env.data }
      else base.clear

/-- One entry of `SecureMemoryCache.cache` after decryption: the payload
`{value, apiKey: masked(this.apiKey)}` built by `set`
(src/src/index.ts lines 460-474). -/
structure MemEntry where
  value : Key
  apiKeyMasked : String
deriving DecidableEq

/-- `SecureMemoryCache` (src/src/index.ts lines 358-537). -/
structure SecureMemoryCache where
  apiKey : String
  encryptionKey : String
  cacheSignature : String
  cacheId : String
  cache : JsMap String MemEntry
deriving DecidableEq

/-- `new SecureMemoryCache(apiKey)` (private constructor, lines 367-375). -/
def mkSecureMemoryCache (scrypt : String → String → String)
    (apiKey : String) : SecureMemoryCache :=
  { apiKey := apiKey
    encryptionKey := scrypt apiKey "fetchyourkeys-memory-cache-v2"
    cacheSignature := scrypt apiKey "memory-cache-signature-v2"
    cacheId := scrypt apiKey "memory-cache-id-v2"
    cache := [] }

/-- `SecureMemoryCache.set` (lines 460-474): store the encrypted payload
`{value, apiKey: masked}`. -/
def SecureMemoryCache.set (c : SecureMemoryCache) (key : String) (value : Key) : SecureMemoryCache :=
  { c with cache := jsSet c.cache key { value := value, apiKeyMasked := maskApiKey c.apiKey } }

/-- `SecureMemoryCache.get` (lines 476-496): decrypt, check the embedded
masked key, delete-and-miss on mismatch. -/
def SecureMemoryCache.get (c : SecureMemoryCache) (key : String) : Option Key × SecureMemoryCache :=
  match jsGet c.cache key with
  | none => (none, c)
  | some e =>
    if e.apiKeyMasked == maskApiKey c.apiKey then (some e.value, c)
    else (none, { c with cache := jsDelete c.cache key })

/-- `SecureMemoryCache.has` (lines 498-500). -/
def SecureMemoryCache.has (c : SecureMemoryCache) (key : String) : Bool :=
  jsHas c.cache key

/-- `SecureMemoryCache.delete` (lines 502-509). -/
def SecureMemoryCache.delete (c : SecureMemoryCache) (key : String) : Bool × SecureMemoryCache :=
  (jsHas c.cache key, { c with cache := jsDelete c.cache key })

/-- `SecureMemoryCache.keys` (lines 511-513). -/
def SecureMemoryCache.keys (c : SecureMemoryCache) : List String :=
  jsKeys c.cache

/-- `SecureMemoryCache.clear` (lines 515-518). -/
def SecureMemoryCache.clear (c : SecureMemoryCache) : SecureMemoryCache :=
  { c with cache := [] }

/-- `SecureMemoryCache.size` (lines 520-522). -/
def SecureMemoryCache.size (c : SecureMemoryCache) : Nat :=
  jsSize c.cache

/-- `SecureMemoryCache.isValidForApiKey` (src/src/index.ts lines 528-536,
src/lib/index.js lines 379-387). -/
def SecureMemoryCache.isValidForApiKey (scrypt : String → String → String)
    (c : SecureMemoryCache) (apiKey : String) : Bool :=
  c.cacheSignature == scrypt apiKey "memory-cache-signature-v2"

/-- The process-wide `SecureMemoryCache.instances` registry, keyed by the
derived cache key. -/
abbrev MemRegistry := JsMap String SecureMemoryCache

/-- The shared opening of both `getInstance` variants:
`if (!instances.has(cacheKey)) instances.set(cacheKey, new SecureMemoryCache(apiKey))`. -/
def ensureInstance (scrypt : String → String → String)
    (reg : MemRegistry) (apiKey : String) : MemRegistry :=
  if jsHas reg (scrypt apiKey "memory-cache-key-v2") then reg
  else jsSet reg (scrypt apiKey "memory-cache-key-v2") (mkSecureMemoryCache scrypt apiKey)

/-- `SecureMemoryCache.getInstance` of src/src/index.ts (lines 387-405):
create on first use, then re-validate ownership; a mismatched singleton is
deleted and the call re-enters.  The single recursive call necessarily
lands in the create-fresh branch (the entry was just deleted) and a fresh
instance always validates, so the recursion is unrolled here. -/
def tsGetInstance (scrypt : String → String → String)
    (reg : MemRegistry) (apiKey : String) : SecureMemoryCache × MemRegistry :=
  let reg1 := ensureInstance scrypt reg apiKey
  let inst := (jsGet reg1 (scrypt apiKey "memory-cache-key-v2")).getD (mkSecureMemoryCache scrypt apiKey)
  if inst.isValidForApiKey scrypt apiKey then (inst, reg1)
  else
    let fresh := mkSecureMemoryCache scrypt apiKey
    (fresh, jsSet (jsDelete reg1 (scrypt apiKey "memory-cache-key-v2")) (scrypt apiKey "memory-cache-key-v2") fresh)

/-- `SecureMemoryCache.getInstance` of src/lib/index.js (lines 339-345):
create on first use and return the registered instance — there is no
ownership re-validation in this variant. -/
def libGetInstance (scrypt : String → String → String)
    (reg : MemRegistry) (apiKey : String) : SecureMemoryCache × MemRegistry :=
  let reg1 := ensureInstance scrypt reg apiKey
  ((jsGet reg1 (scrypt apiKey "memory-cache-key-v2")).getD (mkSecureMemoryCache scrypt apiKey), reg1)

/-- Structured error of the Result envelope (`{code, message, suggestion,
details}`); of `details` only the `availableKeys` list is observed by the
claims and it is modelled here. -/
structure FykError where
  code : String
  message : String
  suggestion : String
  availableKeys : Option (List String)
deriving DecidableEq

/-- `metadata` attached to each Result (`timestamp` dropped). -/
structure Metadata where
  cached : Bool
  online : Bool
deriving DecidableEq

/-- The Result envelope returned by `get` in src/lib/index.js. -/
structure GetResult where
  success : Bool
  data : Option Key
  error : Option FykError
  metadata : Metadata
deriving DecidableEq

/-- The Result envelope returned by `getMultiple` in src/lib/index.js. -/
structure MultiResult where
  success : Bool
  data : Option (JsMap String (Option Key))
  error : Option FykError
  metadata : Metadata
deriving DecidableEq

/-- The typed 401 error stored by `initializeWithAutoValidation`
(src/lib/index.js lines 477-486). -/
def unauthorizedInitError : FykError :=
  { code := "UNAUTHORIZED"
    message := "Clé API FetchYourKeys invalide ou expirée"
    suggestion := "Vérifiez que votre clé FYK_SECRET_KEY est correcte et active sur https://fetchyourkeys.vercel.app"
    availableKeys := none }

/-- The typed 403 error stored by `initializeWithAutoValidation`
(src/lib/index.js lines 487-496). -/
def forbiddenInitError : FykError :=
  { code := "FORBIDDEN"
    message := "Clé API FetchYourKeys non autorisée"
    suggestion := "Cette clé n’a pas les permissions nécessaires. Générez une nouvelle clé sur votre dashboard"
    availableKeys := none }

/-- The terminal error stored when the network fails and the cache is empty
(src/lib/index.js lines 528-535). -/
def networkEmptyError : FykError :=
  { code := "NETWORK_ERROR"
    message := "Impossible de se connecter à FetchYourKeys et aucun cache disponible"
    suggestion := "Vérifiez votre connexion internet et votre clé FYK_SECRET_KEY"
    availableKeys := none }

/-- The `CACHE_INVALID` failure built inside `get`
(src/lib/index.js lines 564-578). -/
def cacheInvalidError : FykError :=
  { code := "CACHE_INVALID"
    message := "Cache invalide pour cette clé API"
    suggestion := "Reconnectez-vous à internet pour recharger"
    availableKeys := none }

/-- The `KEY_NOT_FOUND` failure built inside `get` (src/lib/index.js lines
592-609): `details.availableKeys = this.cache.keys().slice(0, 10)`. -/
def keyNotFoundError (label : String) (available : List String) : FykError :=
  { code := "KEY_NOT_FOUND"
    message := s!"La clé \"{label}\" n’existe pas"
    suggestion := "Vérifiez le nom de la clé sur votre dashboard FetchYourKeys"
    availableKeys := some (available.take 10) }

/-- `ErrorMapper.mapHttpError` (src/lib/index.js lines 39-98) applied to a
stored `FetchYourKeysError`, the only way lookup methods reach it after a
failed initialization: such an error has no `response` property, so
`status` is `undefined` and the generic network arm is taken, carrying the
original error's message. -/
def mapInitFailure (e : FykError) : GetResult :=
  { success := false
    data := none
    error := some
      { code := "NETWORK_ERROR"
        message := if e.message ≠ "" then e.message else "Erreur de connexion réseau"
        suggestion := "Vérifiez votre connexion internet"
        availableKeys := none }
    metadata := { cached := false, online := false } }

/-- `ErrorMapper.mapHttpError` for `getMultiple`'s catch (same arm, no
`data` field). -/
def mapInitFailureMulti (e : FykError) : MultiResult :=
  { success := false
    data := none
    error := some
      { code := "NETWORK_ERROR"
        message := if e.message ≠ "" then e.message else "Erreur de connexion réseau"
        suggestion := "Vérifiez votre connexion internet"
        availableKeys := none }
    metadata := { cached := false, online := false } }

/-- The `FetchYourKeys` class of src/lib/index.js after construction
(environment "dev" default, hence a `SecureDiskCache` backend). -/
structure LibFetchYourKeys where
  apiKey : String
  cache : SecureDiskCache
  isOnline : Bool
  initializationError : Option FykError
deriving DecidableEq

/-- Body of a resolved axios response (`validateStatus: status < 500`):
`success` flag and the `data` array when it is one. -/
structure RespBody where
  success : Bool
  data : Option (List Key)
deriving DecidableEq

/-- Outcome of the validation request issued by
`initializeWithAutoValidation`: a resolved response (any status below 500)
or a rejection (network failure, timeout, 5xx). -/
inductive InitOutcome
  | resp (status : Nat) (body : RespBody)
  | netError
deriving DecidableEq

/-- `initializeWithAutoValidation` (src/lib/index.js lines 467-537).  The
4xx statuses 401/403 store a typed terminal error; a successful body
replaces the cache wholesale, skipping records whose `label` is falsy; the
catch arm stores the terminal network error only when the cache was empty
when the pass started.  (The `error instanceof FetchYourKeysError` test in
the catch can never fire: nothing in the try block throws one.) -/
def LibFetchYourKeys.initWithAutoValidation
    (st : LibFetchYourKeys) (o : InitOutcome) : LibFetchYourKeys :=
  let hasCachedData := st.cache.size > 0
  match o with
  | .resp status body =>
    if status == 401 then { st with initializationError := some unauthorizedInitError }
    else if status == 403 then { st with initializationError := some forbiddenInitError }
    else if body.success then
      match body.data with
      | some ks =>
        { st with
          cache := ks.foldl
            (fun c k => if k.label ≠ "" then SecureDiskCache.set c k.label k else c)
            st.cache.clear
          isOnline := true }
      | none => st
    else st
  | .netError =>
    if hasCachedData then { st with isOnline := false }
    else { st with isOnline := false, initializationError := some networkEmptyError }

/-- `get` of src/lib/index.js (lines 560-615).  A stored initialization
error is rethrown by `waitForInitialization` and caught here, landing in
`ErrorMapper.mapHttpError`; otherwise ownership is checked, then the cache
is consulted. -/
def LibFetchYourKeys.get (scrypt : String → String → String)
    (st : LibFetchYourKeys) (label : String) : GetResult :=
  match st.initializationError with
  | some e => mapInitFailure e
  | none =>
    if st.cache.isValidForApiKey scrypt st.apiKey then
      match jsGet st.cache.cache label with
      | some k =>
        { success := true, data := some (sanitizeKey k), error := none
          metadata := { cached := true, online := st.isOnline } }
      | none =>
        { success := false, data := none
          error := some (keyNotFoundError label st.cache.keys)
          metadata := { cached := false, online := st.isOnline } }
    else
      { success := false, data := none, error := some cacheInvalidError
        metadata := { cached := false, online := st.isOnline } }

/-- `safeGet` of src/lib/index.js (lines 619-628): wrap `get`; return the
value only on success with a truthy (non-empty) value, else the fallback. -/
def LibFetchYourKeys.safeGet (scrypt : String → String → String)
    (st : LibFetchYourKeys) (label fallback : String) : String :=
  let result := LibFetchYourKeys.get scrypt st label
  match result.data with
  | some k => if result.success && k.value ≠ "" then k.value else fallback
  | none => fallback

/-- `getMultiple` of src/lib/index.js (lines 632-669). -/
def LibFetchYourKeys.getMultiple (scrypt : String → String → String)
    (st : LibFetchYourKeys) (labels : List String) : MultiResult :=
  match st.initializationError with
  | some e => mapInitFailureMulti e
  | none =>
    if st.cache.isValidForApiKey scrypt st.apiKey then
      { success := true
        data := some (labels.foldl
          (fun acc label => jsSet acc label ((jsGet st.cache.cache label).map sanitizeKey)) [])
        error := none
        metadata := { cached := true, online := st.isOnline } }
    else
      { success := false, data := none, error := some cacheInvalidError
        metadata := { cached := false, online := st.isOnline } }

/-- `getAll` of src/lib/index.js (lines 726-735): no ownership check in
this variant; a stored initialization error is caught and yields `[]`. -/
def LibFetchYourKeys.getAll (st : LibFetchYourKeys) : List Key :=
  match st.initializationError with
  | some _ => []
  | none =>
    st.cache.keys.map (fun key => sanitizeKey ((jsGet st.cache.cache key).getD default))

/-- The `FetchYourKeys` class of src/src/index.ts after construction
(environment "dev" default, hence a `SecureDiskCache` backend).
`initRejected` models the initialization promise having rejected — in this
variant that only happens on the offline ownership-violation path; every
lookup method awaits the promise and its catch handler fires when it
rejected. -/
structure TsFetchYourKeys where
  apiKey : String
  cache : SecureDiskCache
  isOnline : Bool
  initRejected : Option FykError
deriving DecidableEq

/-- Outcome of one `loadAllKeys` remote call in src/src/index.ts: a
response carrying a `data` array, or a throw (network error / missing
`data`, both propagate as exceptions). -/
inductive LoadOutcome
  | ok (records : List Key)
  | err
deriving DecidableEq

/-- The success path of `loadAllKeys` (src/src/index.ts lines 709-752):
clear the backend and insert every received record keyed by its label —
this variant has no label guard.  (Records are typed `Key[]`, so `label` is
a string here; the behaviour on JSON records that lack the property
altogether is modelled separately at the map level below.) -/
def TsFetchYourKeys.loadAllKeysApply
    (st : TsFetchYourKeys) (records : List Key) : TsFetchYourKeys :=
  { st with cache := records.foldl (fun c k => SecureDiskCache.set c k.label k) st.cache.clear }

/-- The `SecurityError` thrown by `initializeWithOfflineSupport` on an
offline ownership violation (src/src/index.ts lines 672-683). -/
def securityCacheInvalidError : FykError :=
  { code := "SECURITY_ERROR"
    message := "Cache invalide pour cette clé API"
    suggestion := "Le cache a été vidé automatiquement pour raisons de sécurité"
    availableKeys := none }

/-- `initializeWithOfflineSupport` (src/src/index.ts lines 647-698).  On
success: load and mark online.  On failure with cached data: stay offline
on the existing cache unless ownership fails, in which case the cache is
cleared and the error is thrown (the promise rejects).  On failure with an
empty cache: a `NetworkError` is constructed and logged — but neither
stored nor thrown, so the promise resolves normally. -/
def TsFetchYourKeys.initWithOfflineSupport (scrypt : String → String → String)
    (st : TsFetchYourKeys) (o : LoadOutcome) : TsFetchYourKeys :=
  let hasCachedData := st.cache.size > 0
  match o with
  | .ok records => { st.loadAllKeysApply records with isOnline := true }
  | .err =>
    let st' := { st with isOnline := false }
    if hasCachedData then
      if st'.cache.isValidForApiKey scrypt st'.apiKey then st'
      else { st' with cache := st'.cache.clear
                      initRejected := some securityCacheInvalidError }
    else st'

/-- `get` of src/src/index.ts (lines 754-806).  `reload` is the outcome of
the remote call `get` makes when it misses the cache while online. -/
def TsFetchYourKeys.get (scrypt : String → String → String)
    (st : TsFetchYourKeys) (label : String) (reload : LoadOutcome) :
    Option Key × TsFetchYourKeys :=
  match st.initRejected with
  | some _ => (none, st)
  | none =>
    if st.cache.isValidForApiKey scrypt st.apiKey then
      match SecureDiskCache.get st.cache label with
      | some k => (some (sanitizeKey k), st)
      | none =>
        if st.isOnline then
          match reload with
          | .ok records =>
            let st' := st.loadAllKeysApply records
            match SecureDiskCache.get st'.cache label with
            | some k => (some (sanitizeKey k), st')
            | none => (none, st')
          | .err => (none, { st with isOnline := false })
        else (none, st)
    else (none, st)

/-- `getWithFallback` of src/src/index.ts (lines 808-840). -/
def TsFetchYourKeys.getWithFallback (scrypt : String → String → String)
    (st : TsFetchYourKeys) (label fallback : String) : String :=
  match st.initRejected with
  | some _ => fallback
  | none =>
    if st.cache.isValidForApiKey scrypt st.apiKey then
      match SecureDiskCache.get st.cache label with
      | some k => if k.value ≠ "" then k.value else fallback
      | none => fallback
    else fallback

/-- `getMultiple` of src/src/index.ts (lines 842-892). -/
def TsFetchYourKeys.getMultiple (scrypt : String → String → String)
    (st : TsFetchYourKeys) (labels : List String) : JsMap String (Option Key) :=
  match st.initRejected with
  | some _ => labels.foldl (fun acc label => jsSet acc label none) []
  | none =>
    if st.cache.isValidForApiKey scrypt st.apiKey then
      labels.foldl
        (fun acc label => jsSet acc label ((SecureDiskCache.get st.cache label).map sanitizeKey)) []
    else labels.foldl (fun acc label => jsSet acc label none) []

/-- `getAll` of src/src/index.ts (lines 894-918). -/
def TsFetchYourKeys.getAll (scrypt : String → String → String)
    (st : TsFetchYourKeys) : List Key :=
  match st.initRejected with
  | some _ => []
  | none =>
    if st.cache.isValidForApiKey scrypt st.apiKey then
      st.cache.keys.map (fun key => sanitizeKey ((jsGet st.cache.cache key).getD default))
    else []

/-- `filter` of src/src/index.ts (lines 920-935). -/
def TsFetchYourKeys.filter (scrypt : String → String → String)
    (st : TsFetchYourKeys) (predicate : Key → Bool) : List Key :=
  (TsFetchYourKeys.getAll scrypt st).filter predicate

/-- `getByService` of src/src/index.ts (lines 937-940). -/
def TsFetchYourKeys.getByService (scrypt : String → String → String)
    (st : TsFetchYourKeys) (service : String) : List Key :=
  TsFetchYourKeys.filter scrypt st (fun key => key.service == service)

/-- A raw JSON record as it arrives from the network, before any typing:
the `label` property may be absent (`none`).  Used to model the insert
loops of the two initialization passes at the map level. -/
structure JsonKey where
  label : Option String
  id : String
  service : String
  value : String
deriving DecidableEq

/-- One step of the src/lib/index.js insert loop (lines 500-504):
`if (key?.label) { this.cache.set(key.label, key); }` — a record whose
`label` is absent or empty (falsy) is skipped. -/
def libInsertStep (m : JsMap String JsonKey) (k : JsonKey) : JsMap String JsonKey :=
  match k.label with
  | some l => if l ≠ "" then jsSet m l k else m
  | none => m

/-- The whole src/lib/index.js success arm at the map level: `clear()` then
the guarded insert loop. -/
def libLoadEntries (ks : List JsonKey) : JsMap String JsonKey :=
  ks.foldl libInsertStep []

/-- The src/src/index.ts insert loop (lines 721-723):
`this.cache.set(key.label, key)` with no guard — a record lacking the
`label` property is inserted under the `undefined` key. -/
def tsLoadEntries (ks : List JsonKey) : JsMap (Option String) JsonKey :=
  ks.foldl (fun m k => jsSet m k.label k) []

/-- Concrete stand-in for the scrypt derivation used by witnesses: injective
on (credential, salt) pairs, which is all the real derivation guarantees. -/
def scryptConcat : String → String → String :=
  fun credential salt => credential ++ "#" ++ salt

/-- A derivation oracle exhibiting a registry-key collision between two
distinct credentials that still derive distinct signatures (possible for
the real KDF, merely improbable). -/
def scryptCollide : String → String → String :=
  fun credential salt =>
    if salt == "memory-cache-key-v2" then "SHAREDKEY" else credential ++ "#" ++ salt

/-- The spec's scenario record: label "groq", value "gsk_abc". -/
def groqKey : Key :=
  { id := "k1", label := "groq", service := "groq", value := "gsk_abc"
    meta := some [("notes", "demo")], is_active := true
    created_at := "2024-01-01", updated_at := "2024-01-02" }

/-- A record that carries a `meta` payload (used to separate a record from
its sanitized form). -/
def metaKey : Key :=
  { id := "k2", label := "stripe", service := "stripe", value := "sk_live_1"
    meta := some [("tags", "prod")], is_active := true
    created_at := "2024-02-01", updated_at := "2024-02-02" }

/-- A JSON record with no `label` property. -/
def noLabelJson : JsonKey :=
  { label := none, id := "j0", service := "svc", value := "v0" }

/-- A JSON record with the label "groq". -/
def labeledJson : JsonKey :=
  { label := some "groq", id := "j1", service := "groq", value := "v1" }

/-- The spec's scenario credential. -/
def demoApiKey : String := "fk_test_1234567890"

/-- Lib-variant instance holding exactly the scenario record, online, no
stored error. -/
def demoLibState : LibFetchYourKeys :=
  { apiKey := demoApiKey
    cache := SecureDiskCache.set (mkSecureDiskCache scryptConcat demoApiKey .absent) "groq" groqKey
    isOnline := true
    initializationError := none }

/-- Ts-variant instance with an empty cache, online, settled initialization. -/
def demoTsState : TsFetchYourKeys :=
  { apiKey := demoApiKey
    cache := mkSecureDiskCache scryptConcat demoApiKey .absent
    isOnline := true
    initRejected := none }

/-- Ts-variant instance with an empty cache and the online flag still false
(as freshly constructed, before the initialization pass settles). -/
def emptyTsState : TsFetchYourKeys :=
  { apiKey := demoApiKey
    cache := mkSecureDiskCache scryptConcat demoApiKey .absent
    isOnline := false
    initRejected := none }

/-- Lib-variant instance as freshly constructed with an empty cache. -/
def emptyLibState : LibFetchYourKeys :=
  { apiKey := demoApiKey
    cache := mkSecureDiskCache scryptConcat demoApiKey .absent
    isOnline := false
    initializationError := none }

/-- How an HTTP response reaches the ts variant's `loadAllKeys`
(src/src/index.ts lines 709-752): its `axios.get` has no `validateStatus`,
so axios resolves only 2xx statuses; any other status — 401 and 403
included — rejects as an `AxiosError`, which the catch rewraps as a
transient `NetworkError` and rethrows.  A 4xx response is therefore
indistinguishable from a network failure for this variant's callers. -/
def tsAxiosOutcome (status : Nat) (records : List Key) : LoadOutcome :=
  if 200 ≤ status ∧ status < 300 then .ok records else .err

/-- Ts-variant instance whose cache already holds the scenario record (as
left on disk by a previous successful run), before its initialization pass
settles. -/
def warmTsState : TsFetchYourKeys :=
  { apiKey := demoApiKey
    cache := SecureDiskCache.set (mkSecureDiskCache scryptConcat demoApiKey .absent) "groq" groqKey
    isOnline := false
    initRejected := none }

/-! ## Map-model lemmas -/

theorem jsGet_jsSet [BEq κ] [LawfulBEq κ] (m : JsMap κ α) (k q : κ) (v : α) :
    jsGet (jsSet m k v) q = if k == q then some v else jsGet m q := by
  induction m with
  | nil => rfl
  | cons e rest ih =>
    obtain ⟨k', v'⟩ := e
    cases h1 : (k' == k) with
    | true =>
      have hk : k' = k := eq_of_beq h1
      subst hk
      cases h2 : (k' == q) with
      | true => simp [jsSet, jsGet, h1, h2]
      | false => simp [jsSet, jsGet, h1, h2]
    | false =>
      cases h2 : (k' == q) with
      | true =>
        have hq : k' = q := eq_of_beq h2
        subst hq
        have h3 : (k == k') = false :=
          beq_eq_false_iff_ne.mpr (Ne.symm (beq_eq_false_iff_ne.mp h1))
        simp [jsSet, jsGet, h1, h2, h3]
      | false => simp [jsSet, jsGet, h1, h2, ih]

theorem jsGet_jsSet_self [BEq κ] [LawfulBEq κ] (m : JsMap κ α) (k : κ) (v : α) :
    jsGet (jsSet m k v) k = some v := by
  simp [jsGet_jsSet]

/-! ## Backend projection lemmas -/

theorem SecureDiskCache.set_cache (c : SecureDiskCache) (k : String) (v : Key) :
    (SecureDiskCache.set c k v).cache = jsSet c.cache k v := rfl

theorem SecureDiskCache.clear_cache (c : SecureDiskCache) :
    (SecureDiskCache.clear c).cache = [] := rfl

theorem foldl_set_cache (ks : List Key) (c : SecureDiskCache) :
    (ks.foldl (fun acc k => SecureDiskCache.set acc k.label k) c).cache
      = ks.foldl (fun m k => jsSet m k.label k) c.cache := by
  induction ks generalizing c with
  | nil => rfl
  | cons k ks ih =>
    simp only [List.foldl_cons]
    rw [ih]
    rfl

theorem foldl_setIf_cache (ks : List Key) (c : SecureDiskCache) :
    (ks.foldl (fun acc k => if k.label ≠ "" then SecureDiskCache.set acc k.label k else acc) c).cache
      = ks.foldl (fun m k => if k.label ≠ "" then jsSet m k.label k else m) c.cache := by
  induction ks generalizing c with
  | nil => rfl
  | cons k ks ih =>
    simp only [List.foldl_cons]
    by_cases h : k.label ≠ ""
    · rw [if_pos h, if_pos h, ih]; rfl
    · rw [if_neg h, if_neg h, ih]

theorem mkSecureDiskCache_cacheSignature (scrypt : String → String → String)
    (apiKey : String) (file : DiskFile) :
    (mkSecureDiskCache scrypt apiKey file).cacheSignature
      = scrypt apiKey "disk-cache-signature-v2" := by
  unfold mkSecureDiskCache
  cases file with
  | absent => rfl
  | blank => rfl
  | corrupt => rfl
  | enc k env =>
    simp only [tryDecrypt]
    split
    · rfl
    · split
      · rfl
      · rfl

/-! ## Insert-loop characterization (src/lib/index.js success arm) -/

theorem libLoad_aux (xs : List JsonKey) :
    ∀ (acc : JsMap String JsonKey) (l : String) (k : JsonKey),
      jsGet (xs.foldl libInsertStep acc) l = some k →
      jsGet acc l = some k ∨ (k ∈ xs ∧ k.label = some l ∧ l ≠ "") := by
  induction xs with
  | nil => exact fun acc l k h => Or.inl h
  | cons x xs ih =>
    intro acc l k h
    rcases ih (libInsertStep acc x) l k h with h' | h'
    · cases hx : x.label with
      | none => simp only [libInsertStep, hx] at h'; exact Or.inl h'
      | some s =>
        simp only [libInsertStep, hx] at h'
        by_cases hs : s ≠ ""
        · rw [if_pos hs, jsGet_jsSet] at h'
          cases hls : (s == l) with
          | true =>
            rw [hls, if_pos rfl] at h'
            have : k = x := by injection h' with h''; exact h''.symm
            subst this
            exact Or.inr ⟨List.mem_cons_self _ _, by rw [hx, eq_of_beq hls],
              by rw [← eq_of_beq hls]; exact hs⟩
          | false =>
            rw [hls] at h'
            simp only [Bool.false_eq_true, if_false] at h'
            exact Or.inl h'
        · rw [if_neg hs] at h'
          exact Or.inl h'
    · exact Or.inr ⟨List.mem_cons_of_mem _ h'.1, h'.2⟩

theorem libLoad_keeps (xs : List JsonKey) :
    ∀ (acc : JsMap String JsonKey) (l : String),
      (jsGet acc l).isSome = true → (jsGet (xs.foldl libInsertStep acc) l).isSome = true := by
  induction xs with
  | nil => exact fun acc l h => h
  | cons x xs ih =>
    intro acc l h
    apply ih
    cases hx : x.label with
    | none => simpa only [libInsertStep, hx] using h
    | some s =>
      simp only [libInsertStep, hx]
      by_cases hs : s ≠ ""
      · rw [if_pos hs, jsGet_jsSet]
        cases hls : (s == l) with
        | true => simp
        | false => simpa using h
      · rw [if_neg hs]; exact h

theorem libLoad_present (xs : List JsonKey) :
    ∀ k, k ∈ xs → ∀ l, k.label = some l → l ≠ "" →
      ∀ acc, (jsGet (xs.foldl libInsertStep acc) l).isSome = true := by
  induction xs with
  | nil => intro k h; cases h
  | cons x xs ih =>
    intro k hk l hl hne acc
    rcases List.mem_cons.mp hk with rfl | hk'
    · simp only [List.foldl_cons]
      apply libLoad_keeps
      simp only [libInsertStep, hl, if_pos hne, jsGet_jsSet_self]
      rfl
    · exact ih k hk' l hl hne _

/-! ## `all`-preservation through `jsSet` folds -/

theorem jsSet_all [BEq κ] (m : JsMap κ α) (k : κ) (v : α) (p : κ × α → Bool)
    (hm : m.all p = true) (hv : p (k, v) = true) : (jsSet m k v).all p = true := by
  induction m with
  | nil => simp [jsSet, hv]
  | cons e rest ih =>
    obtain ⟨k', v'⟩ := e
    simp only [List.all_cons, Bool.and_eq_true] at hm
    obtain ⟨h1, h2⟩ := hm
    cases hkk : (k' == k) with
    | true => simp [jsSet, hkk, hv, h2]
    | false => simp [jsSet, hkk, h1, ih h2]

theorem foldl_jsSet_all [BEq κ] (p : κ × α → Bool) (f : κ → α)
    (hf : ∀ l, p (l, f l) = true) :
    ∀ (labels : List κ) (acc : JsMap κ α), acc.all p = true →
      (labels.foldl (fun a l => jsSet a l (f l)) acc).all p = true := by
  intro labels
  induction labels with
  | nil => exact fun acc h => h
  | cons l ls ih => exact fun acc h => ih _ (jsSet_all _ _ _ _ h (hf l))

/-! ## `getInstance` lemmas -/

theorem ensureInstance_get (scrypt : String → String → String)
    (reg : MemRegistry) (a : String) :
    jsGet (ensureInstance scrypt reg a) (scrypt a "memory-cache-key-v2")
      = some ((jsGet reg (scrypt a "memory-cache-key-v2")).getD (mkSecureMemoryCache scrypt a)) := by
  unfold ensureInstance jsHas
  cases h : jsGet reg (scrypt a "memory-cache-key-v2") with
  | some i => simp [h]
  | none => simp [h, jsGet_jsSet_self]

theorem tsGetInstance_valid (scrypt : String → String → String)
    (reg : MemRegistry) (a : String) :
    ((tsGetInstance scrypt reg a).1).isValidForApiKey scrypt a = true := by
  simp only [tsGetInstance]
  split
  · assumption
  · simp [mkSecureMemoryCache, SecureMemoryCache.isValidForApiKey]

theorem tsGetInstance_get (scrypt : String → String → String)
    (reg : MemRegistry) (a : String) :
    jsGet (tsGetInstance scrypt reg a).2 (scrypt a "memory-cache-key-v2")
      = some (tsGetInstance scrypt reg a).1 := by
  simp only [tsGetInstance]
  split
  · rw [ensureInstance_get scrypt reg a]
    simp
  · simp [jsGet_jsSet_self]

theorem tsGetInstance_of_get (scrypt : String → String → String)
    (reg : MemRegistry) (a : String) (i : SecureMemoryCache)
    (hg : jsGet reg (scrypt a "memory-cache-key-v2") = some i)
    (hv : i.isValidForApiKey scrypt a = true) :
    tsGetInstance scrypt reg a = (i, reg) := by
  have he : ensureInstance scrypt reg a = reg := by
    unfold ensureInstance jsHas
    rw [hg]
    rfl
  simp only [tsGetInstance, he, hg, Option.getD_some, hv, if_true]

theorem libGetInstance_get (scrypt : String → String → String)
    (reg : MemRegistry) (a : String) :
    jsGet (libGetInstance scrypt reg a).2 (scrypt a "memory-cache-key-v2")
      = some (libGetInstance scrypt reg a).1 := by
  simp only [libGetInstance]
  rw [ensureInstance_get scrypt reg a]
  simp

theorem libGetInstance_of_get (scrypt : String → String → String)
    (reg : MemRegistry) (a : String) (i : SecureMemoryCache)
    (hg : jsGet reg (scrypt a "memory-cache-key-v2") = some i) :
    libGetInstance scrypt reg a = (i, reg) := by
  have he : ensureInstance scrypt reg a = reg := by
    unfold ensureInstance jsHas
    rw [hg]
    rfl
  simp only [libGetInstance, he, hg, Option.getD_some]

/-! ## Claims -/

/-- C1 (amended): in the lib/index.js auto-validation variant, an
initialization request answered 401 (resp. 403) stores the typed terminal
UNAUTHORIZED (resp. FORBIDDEN) error, and every subsequent `get(label)` —
for any cache contents whatsoever — returns the failure envelope produced
from that stored error (success `false`, no data, the stored error's
message) instead of records from the cache.  In the src/src/index.ts
variant, `loadAllKeys` has no `validateStatus`, so a 401/403 response
rejects exactly like a transient network failure: the initialization pass
of an instance with a valid cache then settles as a plain offline fallback
(online flag false, nothing stored or thrown), and a subsequent `get` of a
cached label serves the pre-existing record. -/
theorem C1_auth_errors_are_terminal (scrypt : String → String → String)
    (st : LibFetchYourKeys) (stT : TsFetchYourKeys) (body : RespBody)
    (label : String) (records : List Key) (reload : LoadOutcome) :
    ((st.initWithAutoValidation (.resp 401 body)).initializationError = some unauthorizedInitError
      ∧ unauthorizedInitError.code = "UNAUTHORIZED"
      ∧ LibFetchYourKeys.get scrypt (st.initWithAutoValidation (.resp 401 body)) label
          = mapInitFailure unauthorizedInitError
      ∧ (LibFetchYourKeys.get scrypt (st.initWithAutoValidation (.resp 401 body)) label).success = false
      ∧ (LibFetchYourKeys.get scrypt (st.initWithAutoValidation (.resp 401 body)) label).data = none
      ∧ (LibFetchYourKeys.get scrypt (st.initWithAutoValidation (.resp 401 body)) label).error.map FykError.message
          = some unauthorizedInitError.message)
    ∧ ((st.initWithAutoValidation (.resp 403 body)).initializationError = some forbiddenInitError
      ∧ forbiddenInitError.code = "FORBIDDEN"
      ∧ LibFetchYourKeys.get scrypt (st.initWithAutoValidation (.resp 403 body)) label
          = mapInitFailure forbiddenInitError
      ∧ (LibFetchYourKeys.get scrypt (st.initWithAutoValidation (.resp 403 body)) label).success = false
      ∧ (LibFetchYourKeys.get scrypt (st.initWithAutoValidation (.resp 403 body)) label).data = none
      ∧ (LibFetchYourKeys.get scrypt (st.initWithAutoValidation (.resp 403 body)) label).error.map FykError.message
          = some forbiddenInitError.message)
    ∧ (tsAxiosOutcome 401 records = .err ∧ tsAxiosOutcome 403 records = .err)
    ∧ (stT.cache.isValidForApiKey scrypt stT.apiKey = true →
        stT.initWithOfflineSupport scrypt (tsAxiosOutcome 401 records)
          = { stT with isOnline := false })
    ∧ (∀ k, stT.initRejected = none →
        stT.cache.isValidForApiKey scrypt stT.apiKey = true →
        SecureDiskCache.get stT.cache label = some k →
        (TsFetchYourKeys.get scrypt stT label reload).1 = some (sanitizeKey k)) := by
  refine ⟨⟨rfl, rfl, rfl, rfl, rfl, rfl⟩, ⟨rfl, rfl, rfl, rfl, rfl, rfl⟩, ⟨rfl, rfl⟩, ?_, ?_⟩
  · intro hv
    show stT.initWithOfflineSupport scrypt .err = _
    simp only [TsFetchYourKeys.initWithOfflineSupport]
    by_cases h : stT.cache.size > 0
    · simp [h, hv]
    · simp [h]
  · intro k hr hv hg
    simp only [TsFetchYourKeys.get, hr, if_pos hv, hg]

/-- C1 witness: a warmed ts instance with a valid one-record cache, after
its initialization call is answered 401, settles offline and serves the
cached record. -/
theorem C1_auth_errors_are_terminal_witness :
    (warmTsState.initWithOfflineSupport scryptConcat (tsAxiosOutcome 401 [])
        = { warmTsState with isOnline := false })
    ∧ ((TsFetchYourKeys.get scryptConcat warmTsState "groq" .err).1
        = some (sanitizeKey groqKey)) := by
  have h := C1_auth_errors_are_terminal scryptConcat emptyLibState warmTsState
    ⟨false, none⟩ "groq" [] .err
  exact ⟨h.2.2.2.1 (by decide), h.2.2.2.2 groqKey rfl (by decide) (by decide)⟩

/-- C1 counterexample: the claim says that for *every* instance a 401
response makes every subsequent `get` surface a typed error and never
return records from a pre-existing non-empty cache.  In the cited
src/src/index.ts variant a 401 response rejects inside `loadAllKeys` (no
`validateStatus`) and becomes a transient network error, so the
initialization pass of this concrete instance — whose cache already holds
the "groq" record — stores nothing, and the next `get("groq")` returns
that stale record. -/
theorem C1_ts_401_serves_stale_cache :
    (tsAxiosOutcome 401 [] = .err)
    ∧ ((warmTsState.initWithOfflineSupport scryptConcat (tsAxiosOutcome 401 [])).initRejected
        = none)
    ∧ ((TsFetchYourKeys.get scryptConcat
          (warmTsState.initWithOfflineSupport scryptConcat (tsAxiosOutcome 401 []))
          "groq" (tsAxiosOutcome 401 [])).1 = some (sanitizeKey groqKey)) := by
  refine ⟨rfl, by decide, by decide⟩

/-- C2: for either backend variant constructed with credential A,
`isValidForApiKey(C)` returns true exactly when the signature derived from
C under the variant's fixed salt equals the one stored at construction;
hence any credential whose derived signature differs is rejected. -/
theorem C2_ownership_signature_check (scrypt : String → String → String)
    (A C : String) (file : DiskFile) :
    ((mkSecureDiskCache scrypt A file).isValidForApiKey scrypt C = true
        ↔ scrypt C "disk-cache-signature-v2" = scrypt A "disk-cache-signature-v2")
    ∧ ((mkSecureMemoryCache scrypt A).isValidForApiKey scrypt C = true
        ↔ scrypt C "memory-cache-signature-v2" = scrypt A "memory-cache-signature-v2")
    ∧ (scrypt C "disk-cache-signature-v2" ≠ scrypt A "disk-cache-signature-v2" →
        (mkSecureDiskCache scrypt A file).isValidForApiKey scrypt C = false)
    ∧ (scrypt C "memory-cache-signature-v2" ≠ scrypt A "memory-cache-signature-v2" →
        (mkSecureMemoryCache scrypt A).isValidForApiKey scrypt C = false) := by
  have hd : (mkSecureDiskCache scrypt A file).isValidForApiKey scrypt C
      = (scrypt A "disk-cache-signature-v2" == scrypt C "disk-cache-signature-v2") := by
    unfold SecureDiskCache.isValidForApiKey
    rw [mkSecureDiskCache_cacheSignature]
  have hm : (mkSecureMemoryCache scrypt A).isValidForApiKey scrypt C
      = (scrypt A "memory-cache-signature-v2" == scrypt C "memory-cache-signature-v2") := rfl
  refine ⟨?_, ?_, ?_, ?_⟩
  · rw [hd]
    exact ⟨fun h => (eq_of_beq h).symm, fun h => beq_iff_eq.mpr h.symm⟩
  · rw [hm]
    exact ⟨fun h => (eq_of_beq h).symm, fun h => beq_iff_eq.mpr h.symm⟩
  · intro h; rw [hd]
    exact beq_eq_false_iff_ne.mpr (Ne.symm h)
  · intro h; rw [hm]
    exact beq_eq_false_iff_ne.mpr (Ne.symm h)

/-- C2 witness: a concrete pair of distinct credentials whose derived
signatures differ is rejected by both backend variants. -/
theorem C2_ownership_signature_check_witness :
    (mkSecureDiskCache scryptConcat demoApiKey .absent).isValidForApiKey scryptConcat "fk_other_key_000" = false
    ∧ (mkSecureMemoryCache scryptConcat demoApiKey).isValidForApiKey scryptConcat "fk_other_key_000" = false := by
  have h := C2_ownership_signature_check scryptConcat demoApiKey "fk_other_key_000" .absent
  exact ⟨h.2.2.1 (by decide), h.2.2.2 (by decide)⟩

/-- C3 (amended): on a transient network failure during the one-shot
initialization pass, with cached data both variants continue offline on the
existing cache (online flag false, nothing stored).  With an empty cache,
the lib auto-validation variant stores the terminal "no connectivity and
empty cache" network error and every lookup surfaces it; the ts
offline-support variant merely constructs and logs that error — the pass
settles normally with nothing stored, in either case (its state change is
exactly `isOnline := false`). -/
theorem C3_transient_failure_paths (scrypt : String → String → String)
    (stT : TsFetchYourKeys) (stL : LibFetchYourKeys) (label : String)
    (hvT : stT.cache.isValidForApiKey scrypt stT.apiKey = true) :
    (stT.initWithOfflineSupport scrypt .err = { stT with isOnline := false })
    ∧ (stL.cache.size > 0 →
        stL.initWithAutoValidation .netError = { stL with isOnline := false })
    ∧ (stL.cache.size = 0 →
        (stL.initWithAutoValidation .netError).initializationError = some networkEmptyError
        ∧ LibFetchYourKeys.get scrypt (stL.initWithAutoValidation .netError) label
            = mapInitFailure networkEmptyError) := by
  refine ⟨?_, ?_, ?_⟩
  · simp only [TsFetchYourKeys.initWithOfflineSupport]
    by_cases h : stT.cache.size > 0
    · simp [h, hvT]
    · simp [h]
  · intro h
    simp [LibFetchYourKeys.initWithAutoValidation, h]
  · intro h
    have h0 : ¬ stL.cache.size > 0 := by omega
    constructor
    · simp [LibFetchYourKeys.initWithAutoValidation, h0]
    · simp [LibFetchYourKeys.initWithAutoValidation, LibFetchYourKeys.get, h0]

/-- C3 witness: concrete freshly-constructed instances with empty caches. -/
theorem C3_transient_failure_paths_witness :
    ((emptyLibState.initWithAutoValidation .netError).initializationError = some networkEmptyError)
    ∧ (emptyTsState.initWithOfflineSupport scryptConcat .err
        = { emptyTsState with isOnline := false }) := by
  have h := C3_transient_failure_paths scryptConcat emptyTsState emptyLibState "groq" (by decide)
  exact ⟨(h.2.2 rfl).1, h.1⟩

/-- C3 counterexample: the claim says the terminal "no connectivity and
empty cache" error is *stored and surfaced by subsequent lookups*; in the
src/src/index.ts variant, after a transient failure with an empty cache
nothing is stored (the promise settles normally) and a subsequent `get`
returns a plain `null` miss instead of surfacing a network error. -/
theorem C3_ts_empty_cache_error_not_stored :
    ((emptyTsState.initWithOfflineSupport scryptConcat .err).initRejected = none)
    ∧ ((TsFetchYourKeys.get scryptConcat
          (emptyTsState.initWithOfflineSupport scryptConcat .err) "groq" .err).1 = none) := by
  exact ⟨by decide, by decide⟩

/-- C4: every record handed back to a caller by `get`, `getMultiple`,
`getAll` — and hence `filter` and `getByService` — in either variant has
the `meta` field removed (`none`): every return path passes records through
`sanitizeKey`. -/
theorem C4_sanitization_strips_meta (scrypt : String → String → String)
    (stL : LibFetchYourKeys) (stT : TsFetchYourKeys)
    (label service : String) (labels : List String)
    (predicate : Key → Bool) (reload : LoadOutcome) :
    (((LibFetchYourKeys.get scrypt stL label).data.map Key.meta).getD none = none)
    ∧ (((LibFetchYourKeys.getMultiple scrypt stL labels).data.getD []).all
        (fun e => match e.2 with | some k => k.meta.isNone | none => true) = true)
    ∧ ((LibFetchYourKeys.getAll stL).all (fun k => k.meta.isNone) = true)
    ∧ ((((TsFetchYourKeys.get scrypt stT label reload).1).map Key.meta).getD none = none)
    ∧ ((TsFetchYourKeys.getMultiple scrypt stT labels).all
        (fun e => match e.2 with | some k => k.meta.isNone | none => true) = true)
    ∧ ((TsFetchYourKeys.getAll scrypt stT).all (fun k => k.meta.isNone) = true)
    ∧ ((TsFetchYourKeys.filter scrypt stT predicate).all (fun k => k.meta.isNone) = true)
    ∧ ((TsFetchYourKeys.getByService scrypt stT service).all (fun k => k.meta.isNone) = true) := by
  have hTall : (TsFetchYourKeys.getAll scrypt stT).all (fun k => k.meta.isNone) = true := by
    unfold TsFetchYourKeys.getAll
    cases stT.initRejected with
    | some e => rfl
    | none =>
      by_cases hv : stT.cache.isValidForApiKey scrypt stT.apiKey = true
      · rw [if_pos hv]
        rw [List.all_eq_true]
        intro x hx
        obtain ⟨a, _, rfl⟩ := List.mem_map.mp hx
        rfl
      · rw [if_neg (by simpa using hv)]
        rfl
  refine ⟨?_, ?_, ?_, ?_, ?_, hTall, ?_, ?_⟩
  · unfold LibFetchYourKeys.get
    cases stL.initializationError with
    | some e => rfl
    | none =>
      by_cases hv : stL.cache.isValidForApiKey scrypt stL.apiKey = true
      · rw [if_pos hv]
        cases jsGet stL.cache.cache label with
        | some k => rfl
        | none => rfl
      · rw [if_neg (by simpa using hv)]
        rfl
  · unfold LibFetchYourKeys.getMultiple
    cases stL.initializationError with
    | some e => rfl
    | none =>
      by_cases hv : stL.cache.isValidForApiKey scrypt stL.apiKey = true
      · rw [if_pos hv]
        apply foldl_jsSet_all _ (fun l => (jsGet stL.cache.cache l).map sanitizeKey)
        · intro l
          cases jsGet stL.cache.cache l with
          | some k => rfl
          | none => rfl
        · rfl
      · rw [if_neg (by simpa using hv)]
        rfl
  · unfold LibFetchYourKeys.getAll
    cases stL.initializationError with
    | some e => rfl
    | none =>
      rw [List.all_eq_true]
      intro x hx
      obtain ⟨a, _, rfl⟩ := List.mem_map.mp hx
      rfl
  · unfold TsFetchYourKeys.get
    cases stT.initRejected with
    | some e => rfl
    | none =>
      by_cases hv : stT.cache.isValidForApiKey scrypt stT.apiKey = true
      · rw [if_pos hv]
        cases SecureDiskCache.get stT.cache label with
        | some k => rfl
        | none =>
          by_cases ho : stT.isOnline = true
          · rw [if_pos ho]
            cases reload with
            | ok records =>
              cases h : SecureDiskCache.get (stT.loadAllKeysApply records).cache label with
              | some k => simp [h, sanitizeKey]
              | none => simp [h]
            | err => rfl
          · rw [if_neg (by simpa using ho)]
            rfl
      · rw [if_neg (by simpa using hv)]
        rfl
  · unfold TsFetchYourKeys.getMultiple
    cases stT.initRejected with
    | some e =>
      apply foldl_jsSet_all _ (fun _ => (none : Option Key))
      · intro l; rfl
      · rfl
    | none =>
      by_cases hv : stT.cache.isValidForApiKey scrypt stT.apiKey = true
      · rw [if_pos hv]
        apply foldl_jsSet_all _ (fun l => (SecureDiskCache.get stT.cache l).map sanitizeKey)
        · intro l
          cases SecureDiskCache.get stT.cache l with
          | some k => rfl
          | none => rfl
        · rfl
      · rw [if_neg (by simpa using hv)]
        apply foldl_jsSet_all _ (fun _ => (none : Option Key))
        · intro l; rfl
        · rfl
  · unfold TsFetchYourKeys.filter
    rw [List.all_eq_true] at hTall ⊢
    intro x hx
    exact hTall x (List.mem_of_mem_filter hx)
  · unfold TsFetchYourKeys.getByService TsFetchYourKeys.filter
    rw [List.all_eq_true] at hTall ⊢
    intro x hx
    exact hTall x (List.mem_of_mem_filter hx)

/-- C5 (amended): on a successful fetch during the initialization pass,
both variants replace the backend's entry set wholesale — clear, then
insert the response's records keyed by their label, independently of the
previous contents — and mark the instance online.  Only the lib
auto-validation variant skips records whose `label` is falsy (absent or
empty): at the JSON level its resulting entry set contains exactly records
of the response under their own non-empty labels.  The ts `loadAllKeys`
inserts every record, a record lacking the property landing under the
`undefined` key. -/
theorem C5_wholesale_replace_and_label_skip (scrypt : String → String → String)
    (stL : LibFetchYourKeys) (stT : TsFetchYourKeys)
    (ks : List Key) (jks : List JsonKey) :
    ((stL.initWithAutoValidation (.resp 200 ⟨true, some ks⟩)).cache.cache
        = ks.foldl (fun m k => if k.label ≠ "" then jsSet m k.label k else m) [])
    ∧ (stL.initWithAutoValidation (.resp 200 ⟨true, some ks⟩)).isOnline = true
    ∧ ((stT.initWithOfflineSupport scrypt (.ok ks)).cache.cache
        = ks.foldl (fun m k => jsSet m k.label k) [])
    ∧ (stT.initWithOfflineSupport scrypt (.ok ks)).isOnline = true
    ∧ (∀ l k, jsGet (libLoadEntries jks) l = some k → k ∈ jks ∧ k.label = some l ∧ l ≠ "")
    ∧ (∀ k, k ∈ jks → ∀ l, k.label = some l → l ≠ "" →
        (jsGet (libLoadEntries jks) l).isSome = true) := by
  refine ⟨?_, rfl, ?_, rfl, ?_, ?_⟩
  · show (ks.foldl (fun c k => if k.label ≠ "" then SecureDiskCache.set c k.label k else c)
        stL.cache.clear).cache = _
    rw [foldl_setIf_cache]
    rfl
  · show (ks.foldl (fun c k => SecureDiskCache.set c k.label k) stT.cache.clear).cache = _
    rw [foldl_set_cache]
    rfl
  · intro l k h
    rcases libLoad_aux jks [] l k h with h' | h'
    · cases h'
    · exact h'
  · intro k hk l hl hne
    exact libLoad_present jks k hk l hl hne []

/-- C5 witness: a labelled record of a concrete response is present in the
lib insert loop's result under its own label. -/
theorem C5_wholesale_replace_and_label_skip_witness :
    labeledJson ∈ [labeledJson, noLabelJson]
    ∧ labeledJson.label = some "groq" ∧ "groq" ≠ "" :=
  (C5_wholesale_replace_and_label_skip scryptConcat emptyLibState emptyTsState []
    [labeledJson, noLabelJson]).2.2.2.2.1 "groq" labeledJson rfl

/-- C5 counterexample: the claim says the initialization load skips any
record lacking a label; the src/src/index.ts insert loop inserts such a
record (under the `undefined` key), so after a successful fetch whose
response holds exactly one unlabeled record the ts entry set has size 1
where the claim requires 0 (the lib loop does skip it). -/
theorem C5_ts_inserts_unlabeled_record :
    jsGet (tsLoadEntries [noLabelJson]) none = some noLabelJson
    ∧ jsSize (tsLoadEntries [noLabelJson]) = 1
    ∧ jsSize (libLoadEntries [noLabelJson]) = 0 := by
  exact ⟨rfl, rfl, rfl⟩

/-- C6: `safeGet` (lib) and `getWithFallback` (ts) are total String-valued
functions — the embedding of "never raises" — and for every instance state
(terminal initialization error, invalid ownership, offline empty cache
included) each returns the looked-up record's value exactly when the lookup
succeeds with a non-empty value (the success direction is stated
explicitly), and the fallback string in every other case. -/
theorem C6_safeget_never_throws (scrypt : String → String → String)
    (stL : LibFetchYourKeys) (stT : TsFetchYourKeys) (label fb : String) :
    (LibFetchYourKeys.safeGet scrypt stL label fb = fb ∨
      ∃ k, (LibFetchYourKeys.get scrypt stL label).success = true
        ∧ (LibFetchYourKeys.get scrypt stL label).data = some k
        ∧ k.value ≠ "" ∧ LibFetchYourKeys.safeGet scrypt stL label fb = k.value)
    ∧ ((LibFetchYourKeys.get scrypt stL label).success = false →
        LibFetchYourKeys.safeGet scrypt stL label fb = fb)
    ∧ (∀ k, (LibFetchYourKeys.get scrypt stL label).data = some k → k.value = "" →
        LibFetchYourKeys.safeGet scrypt stL label fb = fb)
    ∧ (TsFetchYourKeys.getWithFallback scrypt stT label fb = fb ∨
      ∃ k, SecureDiskCache.get stT.cache label = some k ∧ k.value ≠ ""
        ∧ TsFetchYourKeys.getWithFallback scrypt stT label fb = k.value)
    ∧ (∀ k, (LibFetchYourKeys.get scrypt stL label).success = true →
        (LibFetchYourKeys.get scrypt stL label).data = some k → k.value ≠ "" →
        LibFetchYourKeys.safeGet scrypt stL label fb = k.value)
    ∧ (∀ k, stT.initRejected = none →
        stT.cache.isValidForApiKey scrypt stT.apiKey = true →
        SecureDiskCache.get stT.cache label = some k → k.value ≠ "" →
        TsFetchYourKeys.getWithFallback scrypt stT label fb = k.value) := by
  refine ⟨?_, ?_, ?_, ?_, ?_, ?_⟩
  · by_cases hS : (LibFetchYourKeys.get scrypt stL label).success = true
    · cases hD : (LibFetchYourKeys.get scrypt stL label).data with
      | none => left; simp [LibFetchYourKeys.safeGet, hD]
      | some k =>
        by_cases hv : k.value = ""
        · left; simp [LibFetchYourKeys.safeGet, hD, hv]
        · right
          exact ⟨k, hS, rfl, hv, by simp [LibFetchYourKeys.safeGet, hD, hS, hv]⟩
    · left
      have hS' : (LibFetchYourKeys.get scrypt stL label).success = false := by
        simpa using hS
      cases hD : (LibFetchYourKeys.get scrypt stL label).data with
      | none => simp [LibFetchYourKeys.safeGet, hD]
      | some k => simp [LibFetchYourKeys.safeGet, hD, hS']
  · intro hS
    cases hD : (LibFetchYourKeys.get scrypt stL label).data with
    | none => simp [LibFetchYourKeys.safeGet, hD]
    | some k => simp [LibFetchYourKeys.safeGet, hD, hS]
  · intro k hD hv
    simp [LibFetchYourKeys.safeGet, hD, hv]
  · unfold TsFetchYourKeys.getWithFallback
    cases hR : stT.initRejected with
    | some e => left; rfl
    | none =>
      by_cases hV : stT.cache.isValidForApiKey scrypt stT.apiKey = true
      · rw [if_pos hV]
        cases hG : SecureDiskCache.get stT.cache label with
        | none => left; rfl
        | some k =>
          by_cases hv : k.value = ""
          · left; simp [hv]
          · right
            exact ⟨k, rfl, hv, by simp [hv]⟩
      · rw [if_neg (by simpa using hV)]
        left; rfl
  · intro k hS hD hv
    simp [LibFetchYourKeys.safeGet, hD, hS, hv]
  · intro k hR hV hG hv
    simp [TsFetchYourKeys.getWithFallback, hR, hV, hG, hv]

/-- C6 witness: after a 401 initialization `safeGet` returns the supplied
fallback string; on a successful non-empty lookup it returns the record's
value, as does the ts `getWithFallback`. -/
theorem C6_safeget_never_throws_witness :
    (LibFetchYourKeys.safeGet scryptConcat
        (emptyLibState.initWithAutoValidation (.resp 401 ⟨false, none⟩)) "groq" "fallback"
        = "fallback")
    ∧ (LibFetchYourKeys.safeGet scryptConcat demoLibState "groq" "fallback" = "gsk_abc")
    ∧ (TsFetchYourKeys.getWithFallback scryptConcat warmTsState "groq" "fallback"
        = "gsk_abc") := by
  refine ⟨?_, ?_, ?_⟩
  · exact (C6_safeget_never_throws scryptConcat
      (emptyLibState.initWithAutoValidation (.resp 401 ⟨false, none⟩)) emptyTsState
      "groq" "fallback").2.1 rfl
  · have h := (C6_safeget_never_throws scryptConcat demoLibState emptyTsState
      "groq" "fallback").2.2.2.2.1 (sanitizeKey groqKey) (by decide) (by decide) (by decide)
    exact h.trans rfl
  · have h := (C6_safeget_never_throws scryptConcat emptyLibState warmTsState
      "groq" "fallback").2.2.2.2.2 groqKey rfl (by decide) (by decide) (by decide)
    exact h.trans rfl

/-- C7 (amended): for either variant, a repeated Memory-backend
`getInstance` request with the same credential returns the same singleton,
and (from an empty registry) a request for a credential with a distinct
derived registry key gets an independent fresh instance while leaving the
first credential's entry untouched — stated for both variants below.
Ownership re-validation with
`isValidForApiKey` and discard-and-rebuild happen only in the
src/src/index.ts variant, whose result therefore always validates for the
requested credential; the src/lib/index.js variant returns the registered
singleton without re-validating it. -/
theorem C7_memory_singleton_reuse (scrypt : String → String → String)
    (a b : String) (reg : MemRegistry)
    (hab : scrypt b "memory-cache-key-v2" ≠ scrypt a "memory-cache-key-v2") :
    ((tsGetInstance scrypt (tsGetInstance scrypt reg a).2 a).1 = (tsGetInstance scrypt reg a).1)
    ∧ ((libGetInstance scrypt (libGetInstance scrypt reg a).2 a).1 = (libGetInstance scrypt reg a).1)
    ∧ ((tsGetInstance scrypt reg a).1.isValidForApiKey scrypt a = true)
    ∧ ((tsGetInstance scrypt [] a).1 = mkSecureMemoryCache scrypt a)
    ∧ ((tsGetInstance scrypt (tsGetInstance scrypt [] a).2 b).1 = mkSecureMemoryCache scrypt b)
    ∧ (jsGet (tsGetInstance scrypt (tsGetInstance scrypt [] a).2 b).2 (scrypt a "memory-cache-key-v2")
        = some (mkSecureMemoryCache scrypt a))
    ∧ ((libGetInstance scrypt [] a).1 = mkSecureMemoryCache scrypt a)
    ∧ ((libGetInstance scrypt (libGetInstance scrypt [] a).2 b).1 = mkSecureMemoryCache scrypt b)
    ∧ (jsGet (libGetInstance scrypt (libGetInstance scrypt [] a).2 b).2 (scrypt a "memory-cache-key-v2")
        = some (mkSecureMemoryCache scrypt a)) := by
  have hfreshvalid : ∀ c : String,
      (mkSecureMemoryCache scrypt c).isValidForApiKey scrypt c = true := by
    intro c
    simp [mkSecureMemoryCache, SecureMemoryCache.isValidForApiKey]
  have hA : tsGetInstance scrypt [] a
      = (mkSecureMemoryCache scrypt a,
         [(scrypt a "memory-cache-key-v2", mkSecureMemoryCache scrypt a)]) := by
    simp [tsGetInstance, ensureInstance, jsHas, jsGet, jsSet, hfreshvalid a]
  have hkeyBA : (scrypt a "memory-cache-key-v2" == scrypt b "memory-cache-key-v2") = false :=
    beq_eq_false_iff_ne.mpr (Ne.symm hab)
  have hB : tsGetInstance scrypt [(scrypt a "memory-cache-key-v2", mkSecureMemoryCache scrypt a)] b
      = (mkSecureMemoryCache scrypt b,
         [(scrypt a "memory-cache-key-v2", mkSecureMemoryCache scrypt a),
          (scrypt b "memory-cache-key-v2", mkSecureMemoryCache scrypt b)]) := by
    simp [tsGetInstance, ensureInstance, jsHas, jsGet, jsSet, hkeyBA, hfreshvalid b]
  have hLA : libGetInstance scrypt [] a
      = (mkSecureMemoryCache scrypt a,
         [(scrypt a "memory-cache-key-v2", mkSecureMemoryCache scrypt a)]) := by
    simp [libGetInstance, ensureInstance, jsHas, jsGet, jsSet]
  have hLB : libGetInstance scrypt [(scrypt a "memory-cache-key-v2", mkSecureMemoryCache scrypt a)] b
      = (mkSecureMemoryCache scrypt b,
         [(scrypt a "memory-cache-key-v2", mkSecureMemoryCache scrypt a),
          (scrypt b "memory-cache-key-v2", mkSecureMemoryCache scrypt b)]) := by
    simp [libGetInstance, ensureInstance, jsHas, jsGet, jsSet, hkeyBA]
  refine ⟨?_, ?_, tsGetInstance_valid scrypt reg a, ?_, ?_, ?_, ?_, ?_, ?_⟩
  · rw [tsGetInstance_of_get scrypt (tsGetInstance scrypt reg a).2 a (tsGetInstance scrypt reg a).1
      (tsGetInstance_get scrypt reg a) (tsGetInstance_valid scrypt reg a)]
  · rw [libGetInstance_of_get scrypt (libGetInstance scrypt reg a).2 a (libGetInstance scrypt reg a).1
      (libGetInstance_get scrypt reg a)]
  · rw [hA]
  · rw [hA, hB]
  · rw [hA, hB]
    simp [jsGet]
  · rw [hLA]
  · rw [hLA, hLB]
  · rw [hLA, hLB]
    simp [jsGet]

/-- C7 witness: concrete credentials with distinct derived registry keys. -/
theorem C7_memory_singleton_reuse_witness :
    ((tsGetInstance scryptConcat [] "credAAAAAAAA").1.isValidForApiKey scryptConcat "credAAAAAAAA" = true)
    ∧ ((tsGetInstance scryptConcat [] "credAAAAAAAA").1 = mkSecureMemoryCache scryptConcat "credAAAAAAAA")
    ∧ ((libGetInstance scryptConcat
          (libGetInstance scryptConcat [] "credAAAAAAAA").2 "credBBBBBBBB").1
        = mkSecureMemoryCache scryptConcat "credBBBBBBBB") := by
  have h := C7_memory_singleton_reuse scryptConcat "credAAAAAAAA" "credBBBBBBBB" [] (by decide)
  exact ⟨h.2.2.1, h.2.2.2.1, h.2.2.2.2.2.2.2.1⟩

/-- C7 counterexample: the claim says a cached singleton's ownership is
re-validated before being returned, a mismatched singleton being discarded
and rebuilt.  Under a derivation on which two distinct credentials share
the registry key but not the signature (possible for the real KDF), the
src/lib/index.js `getInstance` returns credential A's singleton to
credential B unvalidated: the returned instance fails `isValidForApiKey`
for the requested credential. -/
theorem C7_lib_no_revalidation :
    ((libGetInstance scryptCollide
        (libGetInstance scryptCollide [] "credA1234567").2
        "credB7654321").1).isValidForApiKey scryptCollide "credB7654321" = false := by
  decide

/-- C8 (amended): for either backend variant, `set(label, record)` followed
by `get(label)` returns a record equal to *what was set* — the backends
never sanitize — including, for the Disk variant, after reconstructing the
backend from the persisted file with the same credential.  The result
equals the sanitized form of the record exactly when the record carries no
`meta` field. -/
theorem C8_set_get_roundtrip (scrypt : String → String → String)
    (apiKey l : String) (r : Key) (dc : SecureDiskCache) (mc : SecureMemoryCache)
    (hk : dc.apiKey = apiKey)
    (he : dc.encryptionKey = scrypt apiKey "fetchyourkeys-disk-cache-v2")
    (hs : dc.cacheSignature = scrypt apiKey "disk-cache-signature-v2") :
    (SecureDiskCache.get (SecureDiskCache.set dc l r) l = some r)
    ∧ ((SecureMemoryCache.get (SecureMemoryCache.set mc l r) l).1 = some r)
    ∧ (SecureDiskCache.get
        (mkSecureDiskCache scrypt apiKey (SecureDiskCache.set dc l r).file) l = some r)
    ∧ (r.meta = none →
        SecureDiskCache.get (SecureDiskCache.set dc l r) l = some (sanitizeKey r)) := by
  have hdisk : SecureDiskCache.get (SecureDiskCache.set dc l r) l = some r := by
    unfold SecureDiskCache.get SecureDiskCache.set SecureDiskCache.saveToDisk
    exact jsGet_jsSet_self dc.cache l r
  refine ⟨hdisk, ?_, ?_, ?_⟩
  · unfold SecureMemoryCache.get SecureMemoryCache.set
    rw [jsGet_jsSet_self]
    simp
  · unfold SecureDiskCache.set SecureDiskCache.saveToDisk mkSecureDiskCache
    simp only [tryDecrypt, he, hs, hk, beq_self_eq_true, if_pos, Bool.and_self,
      SecureDiskCache.get]
    exact jsGet_jsSet_self dc.cache l r
  · intro hmeta
    rw [hdisk]
    cases r
    simp only [sanitizeKey] at hmeta ⊢
    simp_all

/-- C8 witness: the scenario record round-trips through the Disk backend,
including across a simulated restart from the persisted file. -/
theorem C8_set_get_roundtrip_witness :
    (SecureDiskCache.get
      (SecureDiskCache.set (mkSecureDiskCache scryptConcat demoApiKey .absent) "groq" groqKey)
      "groq" = some groqKey)
    ∧ (SecureDiskCache.get
        (mkSecureDiskCache scryptConcat demoApiKey
          (SecureDiskCache.set (mkSecureDiskCache scryptConcat demoApiKey .absent) "groq" groqKey).file)
        "groq" = some groqKey) := by
  have h := C8_set_get_roundtrip scryptConcat demoApiKey "groq" groqKey
    (mkSecureDiskCache scryptConcat demoApiKey .absent)
    (mkSecureMemoryCache scryptConcat demoApiKey) rfl rfl rfl
  exact ⟨h.1, h.2.2.1⟩

/-- C8 counterexample: the claim as stated requires `get` to return the
*sanitized* form of what was set; a record carrying a `meta` payload is
returned with its `meta` intact by the Memory backend, which differs from
its sanitized form. -/
theorem C8_roundtrip_not_sanitized :
    ((SecureMemoryCache.get
        (SecureMemoryCache.set (mkSecureMemoryCache scryptConcat demoApiKey) "stripe" metaKey)
        "stripe").1 = some metaKey)
    ∧ some metaKey ≠ some (sanitizeKey metaKey) := by
  exact ⟨by decide, by decide⟩

/-- C9: looking up a label absent from a valid cache of an initialized
lib-variant instance yields the `KEY_NOT_FOUND` failure envelope whose
error carries a non-empty suggestion and whose `details.availableKeys` is
the first 10 currently cached labels — all of them when fewer than 10 are
cached, never more than 10. -/
theorem C9_key_not_found_diagnostics (scrypt : String → String → String)
    (st : LibFetchYourKeys) (label : String)
    (hinit : st.initializationError = none)
    (hvalid : st.cache.isValidForApiKey scrypt st.apiKey = true)
    (hmiss : jsGet st.cache.cache label = none) :
    LibFetchYourKeys.get scrypt st label =
      { success := false, data := none
        error := some (keyNotFoundError label st.cache.keys)
        metadata := { cached := false, online := st.isOnline } }
    ∧ (keyNotFoundError label st.cache.keys).code = "KEY_NOT_FOUND"
    ∧ (keyNotFoundError label st.cache.keys).availableKeys = some (st.cache.keys.take 10)
    ∧ (st.cache.keys.take 10).length ≤ 10
    ∧ (st.cache.keys.length ≤ 10 → st.cache.keys.take 10 = st.cache.keys)
    ∧ (∀ x ∈ st.cache.keys.take 10, x ∈ st.cache.keys)
    ∧ (keyNotFoundError label st.cache.keys).suggestion ≠ "" := by
  refine ⟨?_, rfl, rfl, ?_, ?_, ?_, by simp [keyNotFoundError]⟩
  · unfold LibFetchYourKeys.get
    rw [hinit, if_pos hvalid, hmiss]
  · rw [List.length_take]
    exact min_le_left _ _
  · exact fun h => List.take_of_length_le h
  · exact fun x hx => List.take_subset _ _ hx

/-- C9 witness: the spec's scenario — one cached record "groq", lookup of
"missing" returns `KEY_NOT_FOUND` with `availableKeys == ["groq"]`. -/
theorem C9_key_not_found_diagnostics_witness :
    (LibFetchYourKeys.get scryptConcat demoLibState "missing").success = false
    ∧ (LibFetchYourKeys.get scryptConcat demoLibState "missing").error.map FykError.code
        = some "KEY_NOT_FOUND"
    ∧ (LibFetchYourKeys.get scryptConcat demoLibState "missing").error.map FykError.availableKeys
        = some (some ["groq"]) := by
  have h := C9_key_not_found_diagnostics scryptConcat demoLibState "missing"
    rfl (by decide) (by decide)
  rw [h.1]
  exact ⟨rfl, rfl, rfl⟩

/-- C10: in the src/src/index.ts variant, a `get` that misses the cache
while the online flag is true performs a full remote reload: on success the
whole backend is replaced by exactly the response's records (whatever the
previous contents) and the lookup is retried against the new entry set
before returning null; on failure the online flag is flipped to false, null
is returned and the cache is untouched. -/
theorem C10_online_miss_reloads (scrypt : String → String → String)
    (st : TsFetchYourKeys) (label : String) (records : List Key)
    (hr : st.initRejected = none)
    (hv : st.cache.isValidForApiKey scrypt st.apiKey = true)
    (hm : SecureDiskCache.get st.cache label = none)
    (ho : st.isOnline = true) :
    ((TsFetchYourKeys.get scrypt st label (.ok records)).2.cache.cache
        = records.foldl (fun m k => jsSet m k.label k) [])
    ∧ ((TsFetchYourKeys.get scrypt st label (.ok records)).1
        = (jsGet (records.foldl (fun m k => jsSet m k.label k) []) label).map sanitizeKey)
    ∧ (TsFetchYourKeys.get scrypt st label .err = (none, { st with isOnline := false })) := by
  have hcache : (st.loadAllKeysApply records).cache.cache
      = records.foldl (fun m k => jsSet m k.label k) [] := by
    show (records.foldl (fun c k => SecureDiskCache.set c k.label k) st.cache.clear).cache = _
    rw [foldl_set_cache]
    rfl
  have hget : SecureDiskCache.get (st.loadAllKeysApply records).cache label
      = jsGet (records.foldl (fun m k => jsSet m k.label k) []) label := by
    unfold SecureDiskCache.get
    rw [hcache]
  refine ⟨?_, ?_, ?_⟩
  · simp only [TsFetchYourKeys.get, hr, if_pos hv, hm, ho, if_pos]
    cases h : jsGet (records.foldl (fun m k => jsSet m k.label k) []) label with
    | some k => rw [hget, h]; exact hcache
    | none => rw [hget, h]; exact hcache
  · simp only [TsFetchYourKeys.get, hr, if_pos hv, hm, ho, if_pos]
    cases h : jsGet (records.foldl (fun m k => jsSet m k.label k) []) label with
    | some k => rw [hget, h]; rfl
    | none => rw [hget, h]; rfl
  · simp only [TsFetchYourKeys.get, hr, if_pos hv, hm, ho, if_pos]

/-- C10 witness: a miss on an empty online cache with a one-record response
returns that record sanitized; a failing reload flips the online flag. -/
theorem C10_online_miss_reloads_witness :
    ((TsFetchYourKeys.get scryptConcat demoTsState "groq" (.ok [groqKey])).1
        = some (sanitizeKey groqKey))
    ∧ ((TsFetchYourKeys.get scryptConcat demoTsState "groq" .err).2.isOnline = false) := by
  have h := C10_online_miss_reloads scryptConcat demoTsState "groq" [groqKey]
    rfl (by decide) (by decide) rfl
  constructor
  · rw [h.2.1]; rfl
  · rw [h.2.2]
